import Mathlib

/-!
Verification of the pip-inspector repository's extraction and fetch logic.

The repository has two components:

* `src/dev/parse_with_selectolax.py` — two HTML-table extractors,
  `parse_pypi_inspector` (lenient) and `parse_real_pypi_page` (strict),
  both driven by an external HTML parser (selectolax) through a small set
  of CSS selectors, plus an embedded fixture page `html_str`.
* `src/pip_inspector/utils.py` — `fetch_url_content`, a urllib wrapper
  that validates its URL argument, issues a GET, decodes the body and
  maps every network-layer failure to `None`.

The spec treats HTML parsing as an external collaborator, so the
extractors are embedded here as functions on an already-parsed element
tree (`Node`), with the CSS-selector sublanguage the source actually
uses (descendant chains of tag and tag[attr="value"] selectors)
implemented over that tree.  The fetcher is embedded as a function of
the URL argument together with an abstract network outcome, since the
network itself is outside the program.
-/

namespace PipInspector

/-- An HTML element tree node: either a text node or an element with a
tag name, an attribute list and children.  This is the shape of the
navigable tree the external HTML parser hands to the extractors. -/
inductive Node where
  | text (s : String) : Node
  | elem (tag : String) (attrs : List (String × String)) (children : List Node) : Node

/-- A parsed document: the forest of top-level nodes. -/
abbrev Doc := List Node

/-- Attribute lookup, the Python `attributes.get(key)`: first binding of
the key, if any. -/
def attrGet (attrs : List (String × String)) (k : String) : Option String :=
  (attrs.find? (fun p => p.fst == k)).map Prod.snd

/-- Python `node.attributes.get(key, default)` on a node. -/
def Node.attrGetD (n : Node) (k d : String) : String :=
  match n with
  | .text _ => d
  | .elem _ attrs _ => (attrGet attrs k).getD d

/-- Python `node.attributes.get(key)` on a node (no default). -/
def Node.attr (n : Node) (k : String) : Option String :=
  match n with
  | .text _ => none
  | .elem _ attrs _ => attrGet attrs k

mutual
/-- selectolax `node.text()` (deep): concatenation of all text nodes in
the subtree, in document order. -/
def nodeText : Node → String
  | .text s => s
  | .elem _ _ cs => forestText cs

/-- Text content of a forest of nodes, in order. -/
def forestText : List Node → String
  | [] => ""
  | n :: rest => nodeText n ++ forestText rest
end

/-- One simple CSS selector as used by the source: a tag name
(`tr`, `td`, `a`, `p`), or a tag with an attribute equality test
(`input[name="project"]`). -/
inductive Simple where
  | tag (t : String) : Simple
  | tagAttr (t k v : String) : Simple

/-- A compound selector: a descendant chain of simple selectors in
source order, e.g. `table tr` is `[.tag "table", .tag "tr"]`. -/
abbrev Chain := List Simple

/-- Whether a node matches one simple selector. -/
def matchesSimple (s : Simple) (n : Node) : Bool :=
  match s, n with
  | .tag t, .elem tg _ _ => tg == t
  | .tagAttr t k v, .elem tg attrs _ => tg == t && attrGet attrs k == some v
  | _, .text _ => false

/-- Order-preserving embedding of a reversed ancestor-selector list
(nearest selector first) into the reversed ancestor chain (parent
first): the CSS descendant combinator. -/
def embedRev : List Simple → List Node → Bool
  | [], _ => true
  | _ :: _, [] => false
  | s :: ss, a :: rest => (matchesSimple s a && embedRev ss rest) || embedRev (s :: ss) rest

/-- Whether a node with reversed ancestor chain `ancRev` matches a
chain given in reversed form (target selector first). -/
def chainMatchesRev (crev : List Simple) (ancRev : List Node) (n : Node) : Bool :=
  match crev with
  | [] => false
  | s :: ss => matchesSimple s n && embedRev ss ancRev

/-- Whether a node matches any chain of a selector list (the CSS comma). -/
def selMatches (sels : List Chain) (ancRev : List Node) (n : Node) : Bool :=
  sels.any (fun c => chainMatchesRev c.reverse ancRev n)

mutual
/-- All nodes of the subtree rooted at `n` (itself included) matching
the selector list, in document order; `ancRev` is the reversed chain of
ancestors of `n`. -/
def cssNode (sels : List Chain) (ancRev : List Node) : Node → List Node
  | .text _ => []
  | .elem t a cs =>
      (if selMatches sels ancRev (.elem t a cs) then [Node.elem t a cs] else [])
        ++ cssForest sels (Node.elem t a cs :: ancRev) cs

/-- All matching nodes of a forest, in document order. -/
def cssForest (sels : List Chain) (ancRev : List Node) : List Node → List Node
  | [] => []
  | n :: rest => cssNode sels ancRev n ++ cssForest sels ancRev rest
end

/-- selectolax `tree.css(selector)`: all matches in the document, in
document order, each matching node listed once. -/
def css (doc : Doc) (sels : List Chain) : List Node :=
  cssForest sels [] doc

/-- selectolax `tree.css_first(selector)`. -/
def cssFirst (doc : Doc) (sels : List Chain) : Option Node :=
  (css doc sels).head?

/-- selectolax `node.css(selector)`: matches within the node's subtree. -/
def Node.cssIn (n : Node) (sels : List Chain) : List Node :=
  cssForest sels [] [n]

/-- A Python dict value as stored in a version record: `None`, a string,
or an int. -/
inductive PyField where
  | pyNone : PyField
  | pyStr (s : String) : PyField
  | pyInt (n : Nat) : PyField
deriving Repr, DecidableEq

/-- One extracted row: the dict
`{'version': ..., 'url': ..., 'timestamp': ..., 'artifacts': ...}`. -/
structure VersionRecord where
  version : PyField
  url : PyField
  timestamp : PyField
  artifacts : PyField
deriving Repr, DecidableEq

/-- The dict returned by `parse_real_pypi_page`:
`{'project': ..., 'version_count': ..., 'versions': [...]}`. -/
structure PageResult where
  project : Option String
  version_count : Option String
  versions : List VersionRecord
deriving Repr, DecidableEq

/-- Python whitespace for `str.strip()`, restricted to the ASCII
whitespace characters. -/
def pyWhitespace (c : Char) : Bool :=
  c == ' ' || c == '\t' || c == '\n' || c == '\r' || c == '\x0b' || c == '\x0c'

/-- Python `s.strip()`: drop leading and trailing whitespace. -/
def pyStrip (s : String) : String :=
  String.mk (((s.data.dropWhile pyWhitespace).reverse.dropWhile pyWhitespace).reverse)

/-- Python `s.isdigit()`, restricted to ASCII decimal digits: true iff
the string is non-empty and every character is a decimal digit. -/
def pyIsDigit (s : String) : Bool :=
  !s.data.isEmpty && s.data.all (fun c => '0' ≤ c && c ≤ '9')

/-- Python `int(s)` for a decimal digit string. -/
def digitsToNat (s : String) : Nat :=
  s.data.foldl (fun a c => a * 10 + (c.toNat - 48)) 0

/-- Selector `'td'`. -/
def tdSel : List Chain := [[.tag "td"]]

/-- Selector `'a'`. -/
def aSel : List Chain := [[.tag "a"]]

/-- Selector `'p'`. -/
def pSel : List Chain := [[.tag "p"]]

/-- Selector `'input[name="project"]'`. -/
def projectInputSel : List Chain := [[.tagAttr "input" "name" "project"]]

/-- Selector `'table tr'` used by `parse_pypi_inspector`. -/
def inspectorRowSel : List Chain := [[.tag "table", .tag "tr"]]

/-- Selector `'table tbody tr, table tr'` used by `parse_real_pypi_page`. -/
def realRowSel : List Chain :=
  [[.tag "table", .tag "tbody", .tag "tr"], [.tag "table", .tag "tr"]]

/-- The loop body of `parse_pypi_inspector` over its row list:
for each row with at least 3 `td` cells it appends
`{'version': link.text() if link else None,
  'url': link.attributes.get('href', '') if link else None,
  'timestamp': cells[1].text(),
  'artifacts': int(a) if a.isdigit() else a}`  (a = `cells[2].text()`). -/
def lenientLoop : List Node → List VersionRecord
  | [] => []
  | row :: rest =>
    match Node.cssIn row tdSel with
    | c0 :: c1 :: c2 :: _ =>
      let link := (Node.cssIn c0 aSel).head?
      { version := match link with
          | some l => .pyStr (nodeText l)
          | none => .pyNone
        url := match link with
          | some l => .pyStr (l.attrGetD "href" "")
          | none => .pyNone
        timestamp := .pyStr (nodeText c1)
        artifacts :=
          let a := nodeText c2
          if pyIsDigit a then .pyInt (digitsToNat a) else .pyStr a } :: lenientLoop rest
    | _ => lenientLoop rest

/-- `parse_pypi_inspector(content)`: select `'table tr'`, skip the first
matched row (`rows[1:]`), run the loop on the remainder. -/
def parse_pypi_inspector (doc : Doc) : List VersionRecord :=
  lenientLoop ((css doc inspectorRowSel).drop 1)

/-- The loop body of `parse_real_pypi_page` over its row list: for each
row with at least 3 `td` cells whose first cell contains an anchor, it
appends
`{'version': link.text().strip(), 'url': link.attributes.get('href', ''),
  'timestamp': cells[1].text().strip(), 'artifacts': cells[2].text().strip()}`;
rows without an anchor in the first cell are skipped. -/
def strictLoop : List Node → List VersionRecord
  | [] => []
  | row :: rest =>
    match Node.cssIn row tdSel with
    | c0 :: c1 :: c2 :: _ =>
      match (Node.cssIn c0 aSel).head? with
      | some link =>
        { version := .pyStr (pyStrip (nodeText link))
          url := .pyStr (link.attrGetD "href" "")
          timestamp := .pyStr (pyStrip (nodeText c1))
          artifacts := .pyStr (pyStrip (nodeText c2)) } :: strictLoop rest
      | none => strictLoop rest
    | _ => strictLoop rest

/-- `parse_real_pypi_page(html_str)`: project name from
`input[name="project"]`'s `value` attribute (None when the input is
absent), message from the first `p` (None when absent), and the version
rows from `'table tbody tr, table tr'`. -/
def parse_real_pypi_page (doc : Doc) : PageResult :=
  { project := match cssFirst doc projectInputSel with
      | some n => some (n.attrGetD "value" "")
      | none => none
    version_count := (cssFirst doc pSel).map nodeText
    versions := strictLoop (css doc realRowSel) }

/-- Per-row restatement of the strict loop body, for stating invariants:
the record a single row contributes under `parse_real_pypi_page`, or
`none` when it is skipped. -/
def rowToRecordStrict (row : Node) : Option VersionRecord :=
  match Node.cssIn row tdSel with
  | c0 :: c1 :: c2 :: _ =>
    match (Node.cssIn c0 aSel).head? with
    | some link =>
      some { version := .pyStr (pyStrip (nodeText link))
             url := .pyStr (link.attrGetD "href" "")
             timestamp := .pyStr (pyStrip (nodeText c1))
             artifacts := .pyStr (pyStrip (nodeText c2)) }
    | none => none
  | _ => none

/-- Per-row restatement of the lenient loop body: the record a single
examined row contributes under `parse_pypi_inspector`, or `none` when it
is skipped. -/
def rowToRecordLenient (row : Node) : Option VersionRecord :=
  match Node.cssIn row tdSel with
  | c0 :: c1 :: c2 :: _ =>
    let link := (Node.cssIn c0 aSel).head?
    some { version := match link with
             | some l => .pyStr (nodeText l)
             | none => .pyNone
           url := match link with
             | some l => .pyStr (l.attrGetD "href" "")
             | none => .pyNone
           timestamp := .pyStr (nodeText c1)
           artifacts :=
             let a := nodeText c2
             if pyIsDigit a then .pyInt (digitsToNat a) else .pyStr a }
  | _ => none

/-- The `url` argument of `fetch_url_content` as a Python value: `None`,
a string, or some non-string object. -/
inductive PyUrl where
  | pyNone : PyUrl
  | pyStr (s : String) : PyUrl
  | nonText : PyUrl
deriving Repr, DecidableEq

/-- The guard `not url or not isinstance(url, str)` is false exactly for
a non-empty string. -/
def validUrl : PyUrl → Bool
  | .pyStr s => !s.isEmpty
  | _ => false

/-- A successful HTTP response as the fetcher observes it: the raw body
bytes and `response.headers.get_content_charset()`. -/
structure HttpResponse where
  body : List Nat
  charset : Option String
deriving Repr, DecidableEq

/-- The abstract outcome of the `urllib.request.urlopen` call: a
response, or one of the exception classes the source catches. -/
inductive NetOutcome where
  | success (r : HttpResponse) : NetOutcome
  | httpError (code : Nat) (reason : String) : NetOutcome
  | urlError (reason : String) : NetOutcome
  | valueError (msg : String) : NetOutcome
  | otherError (msg : String) : NetOutcome
deriving Repr, DecidableEq

/-- The error a call of `fetch_url_content` can raise: only the
`ValueError` from its URL validation. -/
inductive FetchError where
  | valueError (msg : String) : FetchError
deriving Repr, DecidableEq

/-- U+FFFD, the replacement character substituted by
`decode(..., errors='replace')`. -/
def replacementChar : Char := Char.ofNat 0xFFFD

/-- Whether a byte is a UTF-8 continuation byte. -/
def isCont (b : Nat) : Bool := 0x80 ≤ b && b < 0xC0

/-- Valid first continuation byte after a three-byte lead (excluding
overlong forms and surrogates, as Python does). -/
def cont3ok (b b1 : Nat) : Bool :=
  if b == 0xE0 then 0xA0 ≤ b1 && b1 < 0xC0
  else if b == 0xED then 0x80 ≤ b1 && b1 < 0xA0
  else isCont b1

/-- Valid first continuation byte after a four-byte lead (excluding
overlong forms and values beyond U+10FFFF, as Python does). -/
def cont4ok (b b1 : Nat) : Bool :=
  if b == 0xF0 then 0x90 ≤ b1 && b1 < 0xC0
  else if b == 0xF4 then 0x80 ≤ b1 && b1 < 0x90
  else isCont b1

/-- UTF-8 decoding with `errors='replace'`: a maximal invalid prefix
yields one U+FFFD and decoding resumes at the offending byte; the
function is total on all byte lists.  The list patterns grow to depth
four so that each resumption point is a structural subterm. -/
def utf8DecodeReplace : List Nat → List Char
  | [] => []
  | [b] =>
    if b < 0x80 then [Char.ofNat b] else [replacementChar]
  | [b, b1] =>
    if b < 0x80 then Char.ofNat b :: utf8DecodeReplace [b1]
    else if b < 0xC2 then replacementChar :: utf8DecodeReplace [b1]
    else if b < 0xE0 then
      if isCont b1 then
        [Char.ofNat ((b - 0xC0) * 0x40 + (b1 - 0x80))]
      else replacementChar :: utf8DecodeReplace [b1]
    else if b < 0xF0 then
      if cont3ok b b1 then [replacementChar]
      else replacementChar :: utf8DecodeReplace [b1]
    else if b < 0xF5 then
      if cont4ok b b1 then [replacementChar]
      else replacementChar :: utf8DecodeReplace [b1]
    else replacementChar :: utf8DecodeReplace [b1]
  | [b, b1, b2] =>
    if b < 0x80 then Char.ofNat b :: utf8DecodeReplace [b1, b2]
    else if b < 0xC2 then replacementChar :: utf8DecodeReplace [b1, b2]
    else if b < 0xE0 then
      if isCont b1 then
        Char.ofNat ((b - 0xC0) * 0x40 + (b1 - 0x80)) :: utf8DecodeReplace [b2]
      else replacementChar :: utf8DecodeReplace [b1, b2]
    else if b < 0xF0 then
      if cont3ok b b1 then
        if isCont b2 then
          [Char.ofNat ((b - 0xE0) * 0x1000 + (b1 - 0x80) * 0x40 + (b2 - 0x80))]
        else replacementChar :: utf8DecodeReplace [b2]
      else replacementChar :: utf8DecodeReplace [b1, b2]
    else if b < 0xF5 then
      if cont4ok b b1 then
        if isCont b2 then [replacementChar]
        else replacementChar :: utf8DecodeReplace [b2]
      else replacementChar :: utf8DecodeReplace [b1, b2]
    else replacementChar :: utf8DecodeReplace [b1, b2]
  | b :: b1 :: b2 :: b3 :: t3 =>
    if b < 0x80 then Char.ofNat b :: utf8DecodeReplace (b1 :: b2 :: b3 :: t3)
    else if b < 0xC2 then replacementChar :: utf8DecodeReplace (b1 :: b2 :: b3 :: t3)
    else if b < 0xE0 then
      if isCont b1 then
        Char.ofNat ((b - 0xC0) * 0x40 + (b1 - 0x80)) :: utf8DecodeReplace (b2 :: b3 :: t3)
      else replacementChar :: utf8DecodeReplace (b1 :: b2 :: b3 :: t3)
    else if b < 0xF0 then
      if cont3ok b b1 then
        if isCont b2 then
          Char.ofNat ((b - 0xE0) * 0x1000 + (b1 - 0x80) * 0x40 + (b2 - 0x80))
            :: utf8DecodeReplace (b3 :: t3)
        else replacementChar :: utf8DecodeReplace (b2 :: b3 :: t3)
      else replacementChar :: utf8DecodeReplace (b1 :: b2 :: b3 :: t3)
    else if b < 0xF5 then
      if cont4ok b b1 then
        if isCont b2 then
          if isCont b3 then
            Char.ofNat ((b - 0xF0) * 0x40000 + (b1 - 0x80) * 0x1000
                + (b2 - 0x80) * 0x40 + (b3 - 0x80))
              :: utf8DecodeReplace t3
          else replacementChar :: utf8DecodeReplace (b3 :: t3)
        else replacementChar :: utf8DecodeReplace (b2 :: b3 :: t3)
      else replacementChar :: utf8DecodeReplace (b1 :: b2 :: b3 :: t3)
    else replacementChar :: utf8DecodeReplace (b1 :: b2 :: b3 :: t3)

/-- `response.headers.get_content_charset() or 'utf-8'`: the declared
charset when present and non-empty (Python `or` also discards a falsy
empty string), otherwise the UTF-8 default. -/
def selectEncoding (charset : Option String) : String :=
  match charset with
  | some c => if c.isEmpty then "utf-8" else c
  | none => "utf-8"

/-- `content.decode(encoding, errors='replace')`.  The UTF-8 codec is
modelled in full; the byte-to-character tables of other codecs live in
the Python runtime outside this repository, so a total single-byte
decode stands in for them — every branch is total, as `errors='replace'`
makes decoding. -/
def decodeReplace (enc : String) (bytes : List Nat) : String :=
  if enc == "utf-8" then String.mk (utf8DecodeReplace bytes)
  else String.mk (bytes.map (fun b => Char.ofNat (b % 256)))

/-- `fetch_url_content(url, timeout)`: raise `ValueError` when the URL
is empty or not a string, before touching the network; otherwise decode
a successful response with the declared charset (default UTF-8,
replacing invalid sequences) and map every caught exception to `None`. -/
def fetch_url_content (url : PyUrl) (timeout : Nat) (net : NetOutcome) :
    Except FetchError (Option String) :=
  if validUrl url then
    match net with
    | .success r => .ok (some (decodeReplace (selectEncoding r.charset) r.body))
    | .httpError _ _ => .ok none
    | .urlError _ => .ok none
    | .valueError _ => .ok none
    | .otherError _ => .ok none
  else .error (.valueError "URL must be a non-empty string")

/-- The anchor of the fixture's first data row. -/
def fxAnchor : Node := .elem "a" [("href", "./1.6.0")] [.text "1.6.0"]

/-- First cell of the fixture's first data row. -/
def fxCell0 : Node := .elem "td" [] [fxAnchor]

/-- Second cell of the fixture's first data row. -/
def fxCell1 : Node := .elem "td" [] [.text "2025-05-04T13:21:22"]

/-- Third cell of the fixture's first data row. -/
def fxCell2 : Node := .elem "td" [] [.text "10"]

/-- First data row of the fixture page: version 1.6.0. -/
def fixtureRow1 : Node := .elem "tr" [] [fxCell0, fxCell1, fxCell2]

/-- Second data row of the fixture page: version 1.5.0. -/
def fixtureRow2 : Node :=
  .elem "tr" []
    [ .elem "td" [] [.elem "a" [("href", "./1.5.0")] [.text "1.5.0"]],
      .elem "td" [] [.text "2024-10-18T18:22:29"],
      .elem "td" [] [.text "31"] ]

/-- The header row of the fixture table (three `th` cells, no `td`). -/
def fixtureHeaderRow : Node :=
  .elem "tr" []
    [ .elem "th" [] [.text "Version"],
      .elem "th" [] [.text "Upload Timestamp"],
      .elem "th" [] [.text "Artifacts"] ]

/-- The element tree of the `html_str` fixture literal embedded in the
source's `__main__` block, as written (inter-element whitespace text
nodes omitted; no selected text runs through them). -/
def html_str : Doc :=
  [ .elem "html" []
      [ .elem "body" []
          [ .elem "main" []
              [ .elem "h1" [] [.elem "a" [("href", "/")] [.text "Inspector"]],
                .elem "form" [("action", "/")]
                  [ .elem "input"
                      [ ("type", "text"), ("name", "project"),
                        ("placeholder", "Project name"),
                        ("value", "liburlparser"), ("autocomplete", "off") ] [],
                    .elem "input" [("type", "submit")] [] ],
                .elem "p" [] [.text "Retrieved 20 versions."],
                .elem "table" []
                  [ .elem "colgroup" []
                      [ .elem "col" [("style", "width: 160px")] [],
                        .elem "col" [("style", "width: 160px")] [],
                        .elem "col" [("style", "width: 160px")] [] ],
                    .elem "thead" [] [fixtureHeaderRow],
                    fixtureRow1, fixtureRow2 ] ] ] ] ]

/-- Third cell of a row whose artifacts text carries surrounding
whitespace: trimmed it is the digit string "10". -/
def wsArtifactsCell : Node := .elem "td" [] [.text " 10 "]

/-- A data row whose artifacts cell text is " 10 " (whitespace around
the digits). -/
def wsArtifactsRow : Node :=
  .elem "tr" []
    [ .elem "td" [] [.elem "a" [("href", "./1.0")] [.text "1.0"]],
      .elem "td" [] [.text "2024-01-01T00:00:00"],
      wsArtifactsCell ]

/-- A page holding a header row and `wsArtifactsRow`. -/
def wsArtifactsDoc : Doc :=
  [ .elem "table" [] [fixtureHeaderRow, wsArtifactsRow] ]

/-- First cell of `anchorlessRow`: a `td` with text but no anchor. -/
def anchorlessCell0 : Node := .elem "td" [] [.text "1.0"]

/-- Second cell of `anchorlessRow`. -/
def anchorlessCell1 : Node := .elem "td" [] [.text "2024-01-01T00:00:00"]

/-- Third cell of `anchorlessRow`. -/
def anchorlessCell2 : Node := .elem "td" [] [.text "7"]

/-- A table row with exactly 3 `td` cells whose first cell contains no
anchor. -/
def anchorlessRow : Node :=
  .elem "tr" [] [anchorlessCell0, anchorlessCell1, anchorlessCell2]

/-- A page whose only table row is `anchorlessRow`. -/
def anchorlessDoc : Doc := [ .elem "table" [] [anchorlessRow] ]

/-- A table row with exactly 2 `td` cells. -/
def twoCellRow : Node :=
  .elem "tr" [] [.elem "td" [] [.text "a"], .elem "td" [] [.text "b"]]

/-- A full data row (anchor, timestamp, digit artifacts), first of the
header-less table. -/
def dataRowA : Node :=
  .elem "tr" []
    [ .elem "td" [] [.elem "a" [("href", "./2.0")] [.text "2.0"]],
      .elem "td" [] [.text "2024-02-02T00:00:00"],
      .elem "td" [] [.text "5"] ]

/-- A second full data row of the header-less table. -/
def dataRowB : Node :=
  .elem "tr" []
    [ .elem "td" [] [.elem "a" [("href", "./1.0")] [.text "1.0"]],
      .elem "td" [] [.text "2024-01-01T00:00:00"],
      .elem "td" [] [.text "3"] ]

/-- A table with no header row: both rows are data rows. -/
def noHeaderDoc : Doc := [ .elem "table" [] [dataRowA, dataRowB] ]

/-- A page unrelated to the inspector layout: no project input, no
paragraph, no table. -/
def unrelatedDoc : Doc := [ .elem "div" [] [.text "hello"] ]

/-- The record the fixture's first data row extracts to under
`parse_real_pypi_page`. -/
def firstFixtureRecord : VersionRecord :=
  ⟨.pyStr "1.6.0", .pyStr "./1.6.0", .pyStr "2025-05-04T13:21:22", .pyStr "10"⟩

/-- The strict loop produces exactly the row-wise `filterMap` of its
per-row rule, so records appear in source-row order. -/
theorem strictLoop_eq_filterMap (rows : List Node) :
    strictLoop rows = rows.filterMap rowToRecordStrict := by
  induction rows with
  | nil => rfl
  | cons row rest ih =>
    rw [List.filterMap_cons]
    rcases h : Node.cssIn row tdSel with _ | ⟨c0, _ | ⟨c1, _ | ⟨c2, cs⟩⟩⟩
    · simp [strictLoop, rowToRecordStrict, h, ih]
    · simp [strictLoop, rowToRecordStrict, h, ih]
    · simp [strictLoop, rowToRecordStrict, h, ih]
    · rcases ha : (Node.cssIn c0 aSel).head? with _ | link
      · simp [strictLoop, rowToRecordStrict, h, ha, ih]
      · simp [strictLoop, rowToRecordStrict, h, ha, ih]

/-- The lenient loop produces exactly the row-wise `filterMap` of its
per-row rule. -/
theorem lenientLoop_eq_filterMap (rows : List Node) :
    lenientLoop rows = rows.filterMap rowToRecordLenient := by
  induction rows with
  | nil => rfl
  | cons row rest ih =>
    rw [List.filterMap_cons]
    rcases h : Node.cssIn row tdSel with _ | ⟨c0, _ | ⟨c1, _ | ⟨c2, cs⟩⟩⟩
    · simp [lenientLoop, rowToRecordLenient, h, ih]
    · simp [lenientLoop, rowToRecordLenient, h, ih]
    · simp [lenientLoop, rowToRecordLenient, h, ih]
    · simp [lenientLoop, rowToRecordLenient, h, ih]

/-- A row with fewer than 3 `td` cells contributes no record under
either variant. -/
theorem rowToRecord_eq_none_of_short (row : Node)
    (h : (Node.cssIn row tdSel).length < 3) :
    rowToRecordStrict row = none ∧ rowToRecordLenient row = none := by
  rcases hc : Node.cssIn row tdSel with _ | ⟨c0, _ | ⟨c1, _ | ⟨c2, cs⟩⟩⟩
  · exact ⟨by simp [rowToRecordStrict, hc], by simp [rowToRecordLenient, hc]⟩
  · exact ⟨by simp [rowToRecordStrict, hc], by simp [rowToRecordLenient, hc]⟩
  · exact ⟨by simp [rowToRecordStrict, hc], by simp [rowToRecordLenient, hc]⟩
  · rw [hc] at h
    simp at h
    omega

/-- Every record the strict per-row rule produces has all four fields
as (non-null) strings. -/
theorem rowToRecordStrict_shape (row : Node) (rec : VersionRecord)
    (h : rowToRecordStrict row = some rec) :
    (∃ s, rec.version = PyField.pyStr s) ∧ (∃ s, rec.url = PyField.pyStr s) ∧
    (∃ s, rec.timestamp = PyField.pyStr s) ∧ (∃ s, rec.artifacts = PyField.pyStr s) := by
  unfold rowToRecordStrict at h
  split at h
  · split at h
    · obtain rfl := (Option.some.inj h).symm
      exact ⟨⟨_, rfl⟩, ⟨_, rfl⟩, ⟨_, rfl⟩, ⟨_, rfl⟩⟩
    · exact Option.noConfusion h
  · exact Option.noConfusion h

/-- `attributes.get(key, default)` yields the default exactly when the
attribute is absent. -/
theorem attrGetD_eq_default (n : Node) (k d : String) (h : Node.attr n k = none) :
    Node.attrGetD n k d = d := by
  cases n with
  | text s => rfl
  | elem t a cs =>
    simp only [Node.attr] at h
    simp [Node.attrGetD, h]

/-- C1 (counterexample): on the fixture page, the artifacts fields of
the two extracted records are not the integers 10 and 31 — the claim's
record values, read with the spec's data model (artifacts is an integer
when the cell is purely numeric), do not match what
`parse_real_pypi_page` returns. -/
theorem C1_counterexample :
    (parse_real_pypi_page html_str).versions.map VersionRecord.artifacts ≠
      [PyField.pyInt 10, PyField.pyInt 31] := by decide

/-- C1 (amended): applying `parse_real_pypi_page` to the fixture page
returns project "liburlparser", the message "Retrieved 20 versions."
(which contains "Retrieved 20 versions."), and exactly the two records
for versions 1.6.0 and 1.5.0 in page order, whose artifacts fields hold
the cell texts "10" and "31" (strings, not integers). -/
theorem C1_theorem :
    parse_real_pypi_page html_str =
      { project := some "liburlparser"
        version_count := some "Retrieved 20 versions."
        versions :=
          [ ⟨.pyStr "1.6.0", .pyStr "./1.6.0", .pyStr "2025-05-04T13:21:22", .pyStr "10"⟩,
            ⟨.pyStr "1.5.0", .pyStr "./1.5.0", .pyStr "2024-10-18T18:22:29", .pyStr "31"⟩ ] } :=
  rfl

/-- C2 (counterexample): an artifacts cell with text " 10 " has trimmed
text "10", which is purely decimal digits, yet `parse_pypi_inspector`
stores the raw string " 10 " — neither the integer 10 nor the trimmed
text — and `parse_real_pypi_page` on the same page stores the trimmed
text "10", not the integer 10. -/
theorem C2_counterexample :
    pyStrip " 10 " = "10" ∧ pyIsDigit (pyStrip " 10 ") = true ∧
    (parse_pypi_inspector wsArtifactsDoc).map VersionRecord.artifacts =
      [PyField.pyStr " 10 "] ∧
    (parse_real_pypi_page wsArtifactsDoc).versions.map VersionRecord.artifacts =
      [PyField.pyStr "10"] ∧
    PyField.pyStr " 10 " ≠ PyField.pyInt 10 ∧
    PyField.pyStr "10" ≠ PyField.pyInt 10 := by decide

/-- C2 (amended): for a row with at least 3 cells, the lenient variant
(`parse_pypi_inspector`) stores the integer when the raw, untrimmed
artifacts-cell text consists solely of decimal digits and otherwise the
raw text unchanged (no trimming); the strict variant
(`parse_real_pypi_page`) always stores the trimmed cell text, never an
integer. -/
theorem C2_theorem (row c0 c1 c2 : Node) (cs : List Node)
    (h : Node.cssIn row tdSel = c0 :: c1 :: c2 :: cs) :
    ((rowToRecordLenient row).map VersionRecord.artifacts =
        some (if pyIsDigit (nodeText c2) then PyField.pyInt (digitsToNat (nodeText c2))
              else PyField.pyStr (nodeText c2))) ∧
    (∀ rec, rowToRecordStrict row = some rec →
        rec.artifacts = PyField.pyStr (pyStrip (nodeText c2))) := by
  constructor
  · simp [rowToRecordLenient, h]
  · intro rec hr
    rcases ha : (Node.cssIn c0 aSel).head? with _ | link
    · simp [rowToRecordStrict, h, ha] at hr
    · simp [rowToRecordStrict, h, ha] at hr
      rw [← hr]

/-- Witness for C2: the fixture's first data row, whose artifacts cell
text "10" is purely numeric. -/
theorem C2_theorem_witness :
    ((rowToRecordLenient fixtureRow1).map VersionRecord.artifacts =
        some (if pyIsDigit (nodeText fxCell2) then PyField.pyInt (digitsToNat (nodeText fxCell2))
              else PyField.pyStr (nodeText fxCell2))) ∧
    (∀ rec, rowToRecordStrict fixtureRow1 = some rec →
        rec.artifacts = PyField.pyStr (pyStrip (nodeText fxCell2))) :=
  C2_theorem fixtureRow1 fxCell0 fxCell1 fxCell2 [] rfl

/-- C3 (counterexample): `anchorlessRow` has exactly 3 `td` cells and is
the only matched table row of its page, yet `parse_real_pypi_page`
extracts no record from it (its first cell has no anchor). -/
theorem C3_counterexample :
    (Node.cssIn anchorlessRow tdSel).length = 3 ∧
    css anchorlessDoc realRowSel = [anchorlessRow] ∧
    (parse_real_pypi_page anchorlessDoc).versions = [] :=
  ⟨rfl, rfl, rfl⟩

/-- C3 (amended): an examined row with exactly 2 cells is excluded by
both variants; an examined row with at least 3 cells always yields a
record under the lenient per-row rule, and under the strict rule
exactly when its first cell contains an anchor. -/
theorem C3_theorem (row : Node) :
    ((Node.cssIn row tdSel).length = 2 →
        rowToRecordStrict row = none ∧ rowToRecordLenient row = none) ∧
    (∀ c0 c1 c2 cs, Node.cssIn row tdSel = c0 :: c1 :: c2 :: cs →
        (∃ rec, rowToRecordLenient row = some rec) ∧
        ((∃ rec, rowToRecordStrict row = some rec) ↔ Node.cssIn c0 aSel ≠ [])) := by
  constructor
  · intro h
    exact rowToRecord_eq_none_of_short row (by omega)
  · intro c0 c1 c2 cs h
    constructor
    · exact Option.isSome_iff_exists.mp (by simp [rowToRecordLenient, h])
    · rcases ha : Node.cssIn c0 aSel with _ | ⟨link, ls⟩
      · simp [rowToRecordStrict, h, ha]
      · simp [rowToRecordStrict, h, ha]

/-- Witness for C3: a 2-cell row is excluded; the anchorless 3-cell row
is excluded by the strict rule but kept by the lenient one. -/
theorem C3_theorem_witness :
    (rowToRecordStrict twoCellRow = none ∧ rowToRecordLenient twoCellRow = none) ∧
    ((∃ rec, rowToRecordLenient anchorlessRow = some rec) ∧
     ((∃ rec, rowToRecordStrict anchorlessRow = some rec) ↔
        Node.cssIn anchorlessCell0 aSel ≠ [])) :=
  ⟨(C3_theorem twoCellRow).1 rfl,
   (C3_theorem anchorlessRow).2 anchorlessCell0 anchorlessCell1 anchorlessCell2 [] rfl⟩

/-- C4: `fetch_url_content` raises its `ValueError` exactly when the
URL argument is not a non-empty string (empty, `None`, or non-text),
and then the result is the same for every network outcome (the check
precedes any network activity); for every non-empty string URL the call
never raises — it returns `.ok` of either text or `none`, including on
HTTP errors, URL errors and every other caught exception. -/
theorem C4_theorem (url : PyUrl) (t : Nat) (net : NetOutcome) :
    ((∃ e, fetch_url_content url t net = .error e) ↔ validUrl url = false) ∧
    (validUrl url = true ↔ ∃ s, url = PyUrl.pyStr s ∧ s ≠ "") ∧
    (validUrl url = false →
        ∀ net2, fetch_url_content url t net = fetch_url_content url t net2) ∧
    (validUrl url = true → ∃ r, fetch_url_content url t net = .ok r) := by
  refine ⟨?_, ?_, ?_, ?_⟩
  · constructor
    · rintro ⟨e, he⟩
      by_contra hv
      rw [Bool.not_eq_false] at hv
      rcases net <;> simp [fetch_url_content, hv] at he
    · intro hv
      exact ⟨FetchError.valueError "URL must be a non-empty string",
        by simp [fetch_url_content, hv]⟩
  · cases url with
    | pyNone => simp [validUrl]
    | nonText => simp [validUrl]
    | pyStr s =>
      constructor
      · intro hs
        refine ⟨s, rfl, fun heq => ?_⟩
        rw [heq] at hs
        exact absurd hs (by decide)
      · rintro ⟨s2, hs2, hne⟩
        obtain rfl := PyUrl.pyStr.inj hs2
        have he : s.isEmpty = false :=
          Bool.eq_false_iff.mpr (fun hb => hne (String.isEmpty_iff s |>.mp hb))
        simp [validUrl, he]
  · intro hv net2
    simp [fetch_url_content, hv]
  · intro hv
    cases net with
    | success r =>
      exact ⟨some (decodeReplace (selectEncoding r.charset) r.body),
        by simp [fetch_url_content, hv]⟩
    | httpError c reason => exact ⟨none, by simp [fetch_url_content, hv]⟩
    | urlError reason => exact ⟨none, by simp [fetch_url_content, hv]⟩
    | valueError msg => exact ⟨none, by simp [fetch_url_content, hv]⟩
    | otherError msg => exact ⟨none, by simp [fetch_url_content, hv]⟩

/-- Witness for C4: an empty URL errors identically under two distinct
network outcomes; a non-empty URL with an HTTP 404 outcome returns a
result instead of raising. -/
theorem C4_theorem_witness :
    fetch_url_content (PyUrl.pyStr "") 10 (NetOutcome.httpError 404 "Not Found") =
      fetch_url_content (PyUrl.pyStr "") 10 (NetOutcome.success ⟨[], none⟩) ∧
    (∃ r, fetch_url_content (PyUrl.pyStr "https://example.com") 10
        (NetOutcome.httpError 404 "Not Found") = .ok r) :=
  ⟨(C4_theorem (PyUrl.pyStr "") 10 (NetOutcome.httpError 404 "Not Found")).2.2.1
      rfl (NetOutcome.success ⟨[], none⟩),
   (C4_theorem (PyUrl.pyStr "https://example.com") 10
      (NetOutcome.httpError 404 "Not Found")).2.2.2 rfl⟩

/-- C5: the three extraction steps of `parse_real_pypi_page` tolerate
absence independently — no matching project input yields `project =
none`, no paragraph yields `version_count = none`, zero matched table
rows yield `versions = []` — and extraction of the empty page yields
the all-absent result rather than failing. -/
theorem C5_theorem (doc : Doc) :
    (cssFirst doc projectInputSel = none → (parse_real_pypi_page doc).project = none) ∧
    (cssFirst doc pSel = none → (parse_real_pypi_page doc).version_count = none) ∧
    (css doc realRowSel = [] → (parse_real_pypi_page doc).versions = []) ∧
    parse_real_pypi_page [] = ⟨none, none, []⟩ := by
  refine ⟨?_, ?_, ?_, rfl⟩
  · intro h
    simp [parse_real_pypi_page, h]
  · intro h
    simp [parse_real_pypi_page, h]
  · intro h
    simp [parse_real_pypi_page, h, strictLoop]

/-- Witness for C5: a page with no project input, no paragraph and no
table rows extracts to the all-absent page result. -/
theorem C5_theorem_witness :
    (parse_real_pypi_page unrelatedDoc).project = none ∧
    (parse_real_pypi_page unrelatedDoc).version_count = none ∧
    (parse_real_pypi_page unrelatedDoc).versions = [] :=
  ⟨(C5_theorem unrelatedDoc).1 rfl, (C5_theorem unrelatedDoc).2.1 rfl,
   (C5_theorem unrelatedDoc).2.2.1 rfl⟩

/-- C6: for every page, both variants produce exactly the row-wise
`filterMap` of their per-row rule over the examined rows — so records
appear in source-row order — the record count never exceeds the number
of matched rows, and a row with fewer than 3 cells never contributes a
record (partial or otherwise). -/
theorem C6_theorem (doc : Doc) :
    (parse_real_pypi_page doc).versions = (css doc realRowSel).filterMap rowToRecordStrict ∧
    (parse_real_pypi_page doc).versions.length ≤ (css doc realRowSel).length ∧
    parse_pypi_inspector doc =
      ((css doc inspectorRowSel).drop 1).filterMap rowToRecordLenient ∧
    (parse_pypi_inspector doc).length ≤ (css doc inspectorRowSel).length ∧
    (∀ row, (Node.cssIn row tdSel).length < 3 →
        rowToRecordStrict row = none ∧ rowToRecordLenient row = none) := by
  have hs : (parse_real_pypi_page doc).versions
      = (css doc realRowSel).filterMap rowToRecordStrict := by
    simp [parse_real_pypi_page, strictLoop_eq_filterMap]
  have hl : parse_pypi_inspector doc
      = ((css doc inspectorRowSel).drop 1).filterMap rowToRecordLenient := by
    simp [parse_pypi_inspector, lenientLoop_eq_filterMap]
  refine ⟨hs, ?_, hl, ?_, fun row h => rowToRecord_eq_none_of_short row h⟩
  · rw [hs]
    exact List.length_filterMap_le _ _
  · rw [hl]
    calc (((css doc inspectorRowSel).drop 1).filterMap rowToRecordLenient).length
        ≤ ((css doc inspectorRowSel).drop 1).length := List.length_filterMap_le _ _
      _ ≤ (css doc inspectorRowSel).length := by
          rw [List.length_drop]
          omega

/-- Witness for C6: the fixture page, with the short-row clause applied
to a 2-cell row. -/
theorem C6_theorem_witness :
    (parse_real_pypi_page html_str).versions.length ≤ (css html_str realRowSel).length ∧
    rowToRecordStrict twoCellRow = none ∧ rowToRecordLenient twoCellRow = none :=
  ⟨(C6_theorem html_str).2.1,
   ((C6_theorem html_str).2.2.2.2 twoCellRow (by decide)).1,
   ((C6_theorem html_str).2.2.2.2 twoCellRow (by decide)).2⟩

/-- C7: extraction is deterministic — both variants are pure functions
of the input page, with no parameter for network, time or any outside
state, so identical inputs yield identical outputs. -/
theorem C7_theorem (d1 d2 : Doc) (h : d1 = d2) :
    parse_real_pypi_page d1 = parse_real_pypi_page d2 ∧
    parse_pypi_inspector d1 = parse_pypi_inspector d2 := by
  subst h
  exact ⟨rfl, rfl⟩

/-- Witness for C7: two runs on the fixture page agree. -/
theorem C7_theorem_witness :
    parse_real_pypi_page html_str = parse_real_pypi_page html_str ∧
    parse_pypi_inspector html_str = parse_pypi_inspector html_str :=
  C7_theorem html_str html_str rfl

/-- C8: decoding a fetched body uses the charset declared in the
response when one is present (and non-empty — Python's `or` also
discards a falsy empty charset), otherwise UTF-8; decoding substitutes
the replacement character for invalid byte sequences instead of
failing, so a successful response always yields text. -/
theorem C8_theorem (u : String) (t : Nat) (body : List Nat) (charset : Option String)
    (hu : u ≠ "") :
    fetch_url_content (PyUrl.pyStr u) t (NetOutcome.success ⟨body, charset⟩) =
      .ok (some (decodeReplace (selectEncoding charset) body)) ∧
    selectEncoding none = "utf-8" ∧
    (∀ c, c ≠ "" → selectEncoding (some c) = c) ∧
    decodeReplace "utf-8" [0x68, 0x69, 0xFF] = String.mk ['h', 'i', replacementChar] := by
  have he : u.isEmpty = false :=
    Bool.eq_false_iff.mpr (fun hb => hu (String.isEmpty_iff u |>.mp hb))
  refine ⟨by simp [fetch_url_content, validUrl, he], rfl, ?_, by decide⟩
  intro c hc
  have hce : c.isEmpty = false :=
    Bool.eq_false_iff.mpr (fun hb => hc (String.isEmpty_iff c |>.mp hb))
  simp [selectEncoding, hce]

/-- Witness for C8: a concrete URL and response body, decoded with the
default UTF-8 and with a declared latin-1 charset. -/
theorem C8_theorem_witness :
    fetch_url_content (PyUrl.pyStr "https://example.com") 10
        (NetOutcome.success ⟨[0x68, 0x69, 0xFF], none⟩) =
      .ok (some (decodeReplace (selectEncoding none) [0x68, 0x69, 0xFF])) ∧
    selectEncoding (some "latin-1") = "latin-1" ∧
    decodeReplace "utf-8" [0x68, 0x69, 0xFF] = String.mk ['h', 'i', replacementChar] :=
  ⟨( C8_theorem "https://example.com" 10 [0x68, 0x69, 0xFF] none (by decide)).1,
   ( C8_theorem "https://example.com" 10 [0x68, 0x69, 0xFF] none (by decide)).2.2.1
      "latin-1" (by decide),
   ( C8_theorem "https://example.com" 10 [0x68, 0x69, 0xFF] none (by decide)).2.2.2⟩

/-- C9: `parse_pypi_inspector` unconditionally drops the first matched
table row (`rows[1:]`), whatever its cell count or content; on the
header-less two-data-row table, only one record survives although both
rows are full data rows. -/
theorem C9_theorem :
    (∀ (doc : Doc) (r : Node) (rows : List Node),
        css doc inspectorRowSel = r :: rows →
        parse_pypi_inspector doc = lenientLoop rows) ∧
    (css noHeaderDoc inspectorRowSel).length = 2 ∧
    (parse_pypi_inspector noHeaderDoc).length = 1 := by
  refine ⟨?_, rfl, rfl⟩
  intro doc r rows h
  simp [parse_pypi_inspector, h]

/-- Witness for C9: on the header-less table the result is computed
from the second row alone. -/
theorem C9_theorem_witness :
    parse_pypi_inspector noHeaderDoc = lenientLoop [dataRowB] :=
  C9_theorem.1 noHeaderDoc dataRowA [dataRowB] rfl

/-- C10: every record `parse_real_pypi_page` produces has all four
fields present as (non-null) strings; a row with at least 3 cells and
no anchor in the first cell is skipped entirely; when an anchor is
present its record's url is `attributes.get('href', '')` — the empty
string, not an absent value, when the anchor has no href attribute —
and the artifacts field is always the trimmed third-cell text. -/
theorem C10_theorem :
    (∀ (doc : Doc) (rec : VersionRecord), rec ∈ (parse_real_pypi_page doc).versions →
        (∃ s, rec.version = PyField.pyStr s) ∧ (∃ s, rec.url = PyField.pyStr s) ∧
        (∃ s, rec.timestamp = PyField.pyStr s) ∧ (∃ s, rec.artifacts = PyField.pyStr s)) ∧
    (∀ row c0 c1 c2 cs, Node.cssIn row tdSel = c0 :: c1 :: c2 :: cs →
        (Node.cssIn c0 aSel = [] → rowToRecordStrict row = none) ∧
        (∀ link ls, Node.cssIn c0 aSel = link :: ls →
            ∃ rec, rowToRecordStrict row = some rec ∧
              rec.url = PyField.pyStr (link.attrGetD "href" "") ∧
              rec.artifacts = PyField.pyStr (pyStrip (nodeText c2)) ∧
              (Node.attr link "href" = none → rec.url = PyField.pyStr ""))) := by
  constructor
  · intro doc rec hmem
    have hv : (parse_real_pypi_page doc).versions
        = (css doc realRowSel).filterMap rowToRecordStrict := by
      simp [parse_real_pypi_page, strictLoop_eq_filterMap]
    rw [hv] at hmem
    obtain ⟨row, _, hrow⟩ := List.mem_filterMap.mp hmem
    exact rowToRecordStrict_shape row rec hrow
  · intro row c0 c1 c2 cs h
    constructor
    · intro ha
      simp [rowToRecordStrict, h, ha]
    · intro link ls ha
      refine ⟨{ version := PyField.pyStr (pyStrip (nodeText link))
                url := PyField.pyStr (link.attrGetD "href" "")
                timestamp := PyField.pyStr (pyStrip (nodeText c1))
                artifacts := PyField.pyStr (pyStrip (nodeText c2)) },
              by simp [rowToRecordStrict, h, ha], rfl, rfl, ?_⟩
      intro hattr
      simp [attrGetD_eq_default link "href" "" hattr]

/-- Witness for C10: the fixture's first extracted record has four
string fields, and the fixture's first data row yields a record whose
url is its anchor's href and whose artifacts is the trimmed cell text. -/
theorem C10_theorem_witness :
    ((∃ s, firstFixtureRecord.version = PyField.pyStr s) ∧
     (∃ s, firstFixtureRecord.url = PyField.pyStr s) ∧
     (∃ s, firstFixtureRecord.timestamp = PyField.pyStr s) ∧
     (∃ s, firstFixtureRecord.artifacts = PyField.pyStr s)) ∧
    (∃ rec, rowToRecordStrict fixtureRow1 = some rec ∧
        rec.url = PyField.pyStr (Node.attrGetD fxAnchor "href" "") ∧
        rec.artifacts = PyField.pyStr (pyStrip (nodeText fxCell2)) ∧
        (Node.attr fxAnchor "href" = none → rec.url = PyField.pyStr "")) :=
  ⟨C10_theorem.1 html_str firstFixtureRecord (by decide),
   (C10_theorem.2 fixtureRow1 fxCell0 fxCell1 fxCell2 [] rfl).2 fxAnchor [] rfl⟩

end PipInspector
